import Mathlib

/-!
Shallow embedding of the dispatch-and-resource-lifecycle runtime
(extension registration, op middleware, resource table ops) and proofs
about the behaviour of the embedded operations.

Sources embedded:
- `core/extensions.rs` (`Extension`, `OpRegistrar`, `OpMiddleware`)
- `core/runtime_modules.rs` (`BasicModule`)
- `core/ops_bin.rs` (`bin_op_sync`, `bin_op_async`)
- `runtime/ops/command.rs` (`op_command_child_wait`, `op_command_child_output`)
- `runtime/ops/signal.rs` (`SignalStreamResource`, `op_signal_unbind`, `op_signal_poll`)
- `cli/ops/net.rs` (`accept_tcp`, `op_shutdown`, `TcpListenerResource`)
- `cli/ops/plugin.rs` (`RefResource`, `PluginResourceTable`)

The `ResourceTable` and `AsyncRefCell` types live in `deno_core`, whose
implementation is not part of this tree; they are modelled from the design
document (sections 4.3 and 4.4) and each such definition is marked
`Modelled from the spec:` in its doc comment.
-/

namespace DenoCore

/-- Error values built by the `deno_core::error` constructors used in the
embedded ops (`bad_resource`, `bad_resource_id`, `type_error`,
`custom_error`, `generic_error`) plus pass-through native failures. -/
inductive AnyError where
  | badResource (msg : String)
  | badResourceId
  | typeError (msg : String)
  | customError (className : String) (msg : String)
  | genericError (msg : String)
  | underlying (msg : String)
  deriving DecidableEq, Repr

end DenoCore

namespace Extensions

open DenoCore

/-- An op registrar: either the base `JsRuntime` name-to-handler map, or an
`OpMiddleware` (core/extensions.rs) wrapping an inner registrar together
with its `middleware_fn`.  `F` stands for the op-function type `Box<OpFn>`. -/
inductive OpRegistrar (F : Type) where
  | base (ops : List (String × F))
  | middleware (registrar : OpRegistrar F) (middleware_fn : String → F → F)

/-- `register_op` for both registrar forms.  The base form binds the pair in
the map; `OpMiddleware::register_op` first applies `middleware_fn` to the
handler and then delegates to the wrapped registrar under the same name
(core/extensions.rs lines 110-115). -/
def OpRegistrar.register_op {F : Type} :
    OpRegistrar F → String → F → OpRegistrar F
  | .base ops, name, op_fn => .base (ops ++ [(name, op_fn)])
  | .middleware registrar middleware_fn, name, op_fn =>
      .middleware (registrar.register_op name (middleware_fn name op_fn))
        middleware_fn

/-- The final stored name-to-handler map at the bottom of a registrar chain. -/
def OpRegistrar.storedOps {F : Type} : OpRegistrar F → List (String × F)
  | .base ops => ops
  | .middleware registrar _ => registrar.storedOps

/-- The externally visible op names of the final stored map. -/
def OpRegistrar.opNames {F : Type} (r : OpRegistrar F) : List String :=
  r.storedOps.map Prod.fst

/-- `Extension` (core/extensions.rs): optional JS sources, optional op
declarations, optional state initializer, optional middleware transform.
`S` stands for `OpState`; the state initializer is the pure form of
`Fn(&mut OpState) -> Result<(), AnyError>`. -/
structure Extension (F S : Type) where
  js_files : Option (List (String × String))
  ops : Option (List (String × F))
  opstate_fn : Option (S → Except AnyError S)
  middleware_fn : Option (String → F → F)

/-- `Extension::init_ops`: `self.ops.take()`; when declarations are present
they are registered one by one, when they have already been consumed the
body is skipped; either way the function returns `Ok(())`.  The result is
(returned value, extension after the `take`, registrar after the loop). -/
def Extension.init_ops {F S : Type} (e : Extension F S)
    (registrar : OpRegistrar F) :
    Except AnyError Unit × Extension F S × OpRegistrar F :=
  match e.ops with
  | some ops =>
      (Except.ok (), { e with ops := none },
        ops.foldl (fun r p => r.register_op p.1 p.2) registrar)
  | none => (Except.ok (), e, registrar)

/-- `Extension::init_registrar`: `self.middleware_fn.take()`; when a
middleware is present the given registrar is wrapped in an `OpMiddleware`,
otherwise it is returned unchanged. -/
def Extension.init_registrar {F S : Type} (e : Extension F S)
    (registrar : OpRegistrar F) : Extension F S × OpRegistrar F :=
  match e.middleware_fn with
  | some middleware_fn =>
      ({ e with middleware_fn := none }, .middleware registrar middleware_fn)
  | none => (e, registrar)

/-- Middleware events observable around one dispatch: a wrapper's
pre-invocation logic, the wrapped op body itself, a wrapper's
post-invocation logic. -/
inductive MwEvent where
  | pre (i : Nat)
  | body (i : Nat)
  | post (i : Nat)
  deriving DecidableEq, Repr

/-- A concrete wrapping middleware used to observe invocation order: it
leaves the name alone and surrounds the wrapped handler's dispatch trace
with its own pre and post events. -/
def traceMiddleware (i : Nat) : String → List MwEvent → List MwEvent :=
  fun _ op_fn => MwEvent.pre i :: op_fn ++ [MwEvent.post i]

end Extensions

namespace RuntimeModules

open DenoCore Extensions

/-- `BasicModule` (core/runtime_modules.rs): same bundle as `Extension`
minus the middleware transform.  The registrar trait there is structurally
the same as in core/extensions.rs, so `OpRegistrar` is shared. -/
structure BasicModule (F S : Type) where
  js_files : Option (List (String × String))
  ops : Option (List (String × F))
  opstate_fn : Option (S → Except AnyError S)

/-- `BasicModule::init_ops` (core/runtime_modules.rs lines 91-100): same
`self.ops.take()` pattern as `Extension::init_ops`; the second call finds
`None` and returns `Ok(())` without registering anything. -/
def BasicModule.init_ops {F S : Type} (m : BasicModule F S)
    (registrar : OpRegistrar F) :
    Except AnyError Unit × BasicModule F S × OpRegistrar F :=
  match m.ops with
  | some ops =>
      (Except.ok (), { m with ops := none },
        ops.foldl (fun r p => r.register_op p.1 p.2) registrar)
  | none => (Except.ok (), m, registrar)

end RuntimeModules

namespace RuntimeOps

open DenoCore

/-- The child process held by a `ChildResource` (runtime/ops/command.rs):
its pid and its currently attached piped standard streams (pipes are
identified by a numeric payload, `none` when the stream is detached). -/
structure ChildProc where
  pid : Nat
  stdout : Option Nat
  stderr : Option Nat
  deriving DecidableEq, Repr

/-- The boxed `dyn Resource` values stored in the runtime resource table
that the embedded ops manipulate.  `signalStream` carries the index of its
`CancelHandle` in the shared cancel-handle store (the handle is shared,
through `RcRef`, with any suspended poll). -/
inductive BoxedResource where
  | child (proc : ChildProc)
  | childStdout (pipe : Nat)
  | childStderr (pipe : Nat)
  | signalStream (cancelHandle : Nat)
  | other (tag : Nat)
  deriving DecidableEq, Repr

/-- Modelled from the spec: `deno_core`'s `ResourceTable` is not part of
this tree.  Section 4.3: an owned id-to-boxed-resource map; `add` assigns
an id not currently live (a monotone counter). -/
structure ResourceTable where
  entries : List (Nat × BoxedResource)
  next_rid : Nat
  deriving DecidableEq, Repr

/-- Look the id up in the map. -/
def ResourceTable.lookup (t : ResourceTable) (rid : Nat) :
    Option BoxedResource :=
  (t.entries.find? (fun p => p.1 = rid)).map Prod.snd

/-- Remove every entry registered under the id. -/
def ResourceTable.removeEntry (t : ResourceTable) (rid : Nat) :
    ResourceTable :=
  { t with entries := t.entries.filter (fun p => p.1 ≠ rid) }

/-- Modelled from the spec: `add(resource) -> id` assigns an id not
currently live; never reused while that resource remains registered. -/
def ResourceTable.add (t : ResourceTable) (r : BoxedResource) :
    Nat × ResourceTable :=
  (t.next_rid,
    { entries := t.entries ++ [(t.next_rid, r)], next_rid := t.next_rid + 1 })

/-- Modelled from the spec: `get<T>(id)` returns the resource if present
and of type `T`; absence and type mismatch are both NotFound.  This is the
`ChildResource` instance. -/
def ResourceTable.get_child (t : ResourceTable) (rid : Nat) :
    Option ChildProc :=
  match t.lookup rid with
  | some (.child c) => some c
  | _ => none

/-- Modelled from the spec: `take<T>(id)` removes and returns ownership;
on absence or type mismatch nothing is removed.  `ChildResource` instance. -/
def ResourceTable.take_child (t : ResourceTable) (rid : Nat) :
    Option (ChildProc × ResourceTable) :=
  match t.lookup rid with
  | some (.child c) => some (c, t.removeEntry rid)
  | _ => none

/-- Modelled from the spec: `take::<ChildStdoutResource>` instance. -/
def ResourceTable.take_childStdout (t : ResourceTable) (rid : Nat) :
    Option (Nat × ResourceTable) :=
  match t.lookup rid with
  | some (.childStdout pipe) => some (pipe, t.removeEntry rid)
  | _ => none

/-- Modelled from the spec: `take::<ChildStderrResource>` instance. -/
def ResourceTable.take_childStderr (t : ResourceTable) (rid : Nat) :
    Option (Nat × ResourceTable) :=
  match t.lookup rid with
  | some (.childStderr pipe) => some (pipe, t.removeEntry rid)
  | _ => none

/-- The close hook run by `ResourceTable::close` on the removed resource.
For `SignalStreamResource` (runtime/ops/signal.rs lines 44-52) the hook is
`self.cancel.cancel()`, which triggers the resource's `CancelHandle` in
the shared store; the other embedded resources have no close hook. -/
def closeHook : BoxedResource → (Nat → Bool) → (Nat → Bool)
  | .signalStream h, cancels => fun k => if k = h then true else cancels k
  | _, cancels => cancels

/-- Modelled from the spec: `close(id)` removes the entry and invokes its
close hook; closing an absent id is an explicit error (`none`). -/
def ResourceTable.close (t : ResourceTable) (cancels : Nat → Bool)
    (rid : Nat) : Option (ResourceTable × (Nat → Bool)) :=
  match t.lookup rid with
  | some r => some (t.removeEntry rid, closeHook r cancels)
  | none => none

/-- Exit status reported for a child process (runtime/ops/command.rs
`CommandStatus`). -/
structure CommandStatus where
  success : Bool
  code : Int
  signal : Option Int
  deriving DecidableEq, Repr

/-- `op_command_child_wait` (runtime/ops/command.rs lines 257-268): the
child resource is removed from the table with `take` and only then is the
process exit awaited; `wait` oracles the OS wait on the owned child. -/
def op_command_child_wait (wait : ChildProc → CommandStatus)
    (t : ResourceTable) (rid : Nat) :
    Except AnyError CommandStatus × ResourceTable :=
  match t.take_child rid with
  | none => (.error .badResourceId, t)
  | some (child, t1) => (.ok (wait child), t1)

/-- The `rid`/`stdout_rid`/`stderr_rid` argument triple of
`op_command_child_output`. -/
structure ChildStdio where
  rid : Nat
  stdout_rid : Option Nat
  stderr_rid : Option Nat
  deriving DecidableEq, Repr

/-- `CommandOutput` (runtime/ops/command.rs): exit status plus the
captured byte buffers of the piped standard streams. -/
structure CommandOutput where
  status : CommandStatus
  stdout : Option (List Nat)
  stderr : Option (List Nat)
  deriving DecidableEq, Repr

/-- The tail of `op_command_child_output` after both stream re-attachment
steps: `wait_with_output` (oracled by `waitOutput`) and the response,
which echoes a buffer exactly for the streams that were re-attached. -/
def child_output_finish
    (waitOutput : ChildProc → CommandStatus × List Nat × List Nat)
    (args : ChildStdio) (child : ChildProc) (t : ResourceTable) :
    Except AnyError CommandOutput × ResourceTable :=
  let r := waitOutput child
  (.ok { status := r.1,
         stdout := if args.stdout_rid.isSome then some r.2.1 else none,
         stderr := if args.stderr_rid.isSome then some r.2.2 else none }, t)

/-- The stderr re-attachment step of `op_command_child_output`: when a
`stderr_rid` is given, the pipe resource is taken out of the table and
re-attached to the child before waiting. -/
def child_output_stderr_phase
    (waitOutput : ChildProc → CommandStatus × List Nat × List Nat)
    (args : ChildStdio) (child : ChildProc) (t : ResourceTable) :
    Except AnyError CommandOutput × ResourceTable :=
  match args.stderr_rid with
  | some stderr_rid =>
      match t.take_childStderr stderr_rid with
      | none => (.error .badResourceId, t)
      | some (pipe, t2) =>
          child_output_finish waitOutput args
            { child with stderr := some pipe } t2
  | none => child_output_finish waitOutput args child t

/-- `op_command_child_output` (runtime/ops/command.rs lines 278-320): the
child resource is taken out of the table first; then, when stream rids are
given, the piped stdout and stderr resources are taken and re-attached to
the child; then `wait_with_output` is awaited.  A failing stream `take`
returns its error after the child has already been removed. -/
def op_command_child_output
    (waitOutput : ChildProc → CommandStatus × List Nat × List Nat)
    (t : ResourceTable) (args : ChildStdio) :
    Except AnyError CommandOutput × ResourceTable :=
  match t.take_child args.rid with
  | none => (.error .badResourceId, t)
  | some (child, t1) =>
      match args.stdout_rid with
      | some stdout_rid =>
          match t1.take_childStdout stdout_rid with
          | none => (.error .badResourceId, t1)
          | some (pipe, t2) =>
              child_output_stderr_phase waitOutput args
                { child with stdout := some pipe } t2
      | none => child_output_stderr_phase waitOutput args child t1

/-- `op_signal_unbind` (runtime/ops/signal.rs lines 93-104):
`resource_table.close(rid)`, mapping an absent id to `bad_resource_id`. -/
def op_signal_unbind (t : ResourceTable) (cancels : Nat → Bool)
    (rid : Nat) : Except AnyError Unit × ResourceTable × (Nat → Bool) :=
  match t.close cancels rid with
  | none => (.error .badResourceId, t, cancels)
  | some (t1, cancels1) => (.ok (), t1, cancels1)

/-- `or_cancel`: the race of the underlying signal wait against the
resource's `CancelHandle`; when the handle has been triggered the race
resolves as `Err(Cancelled)`, otherwise it yields the wait's outcome
(`none` meaning the OS signal stream ended). -/
def or_cancel (canceled : Bool) (recv : Option Unit) :
    Except Unit (Option Unit) :=
  if canceled then .error () else .ok recv

/-- The resolution of a suspended `op_signal_poll` (runtime/ops/signal.rs
lines 86-89) once scheduled: `Ok(result)` maps to `Ok(result.is_none())`
and a cancellation maps to `Ok(true)` — the clean "stream ended" answer. -/
def op_signal_poll_resume (canceled : Bool) (recv : Option Unit) :
    Except AnyError Bool :=
  match or_cancel canceled recv with
  | .ok result => .ok result.isNone
  | .error _ => .ok true

end RuntimeOps

namespace Net

open DenoCore

/-- Modelled from the spec: `deno_core`'s `AsyncRefCell` is not part of
this tree.  Section 4.4: the cell holds an exclusive-borrow flag and a
FIFO of suspended waiters. -/
structure AsyncRefCell where
  borrowed : Bool
  waiters : List Nat
  deriving DecidableEq, Repr

/-- Modelled from the spec: `try_borrow_mut` performs one
compare-and-acquire; on failure it returns Busy (`none`) without waiting —
the cell is left unchanged and no waiter is enqueued.  On success the
exclusive-borrow flag is set. -/
def AsyncRefCell.try_borrow_mut (c : AsyncRefCell) :
    Option Unit × AsyncRefCell :=
  if c.borrowed then (none, c) else (some (), { c with borrowed := true })

/-- The `StreamResource` variants of cli/ops/net.rs that `op_shutdown`
matches on (`TcpStream` holds an `Option`; other variants live in io.rs
and fall into the catch-all branch). -/
inductive StreamResource where
  | tcpStream (s : Option Nat)
  | unixStream (s : Nat)
  | otherStream (tag : Nat)
  deriving DecidableEq, Repr

/-- `StreamResourceHolder` (cli/ops/io.rs), the boxed value stored in the
name-keyed resource table used by the stream ops. -/
structure StreamResourceHolder where
  resource : StreamResource
  deriving DecidableEq, Repr

/-- The typed resources stored in `resource_table_2` by the net ops:
`TcpListenerResource` and `UdpSocketResource` each wrap their socket in an
`AsyncRefCell` (cli/ops/net.rs lines 366-396). -/
inductive NetResource where
  | tcpListener (cell : AsyncRefCell)
  | udpSocket (cell : AsyncRefCell)
  deriving DecidableEq, Repr

/-- The slice of `OpState` that the embedded net ops touch: the old-style
name-keyed `resource_table` holding stream resources, the typed
`resource_table_2` holding listener/datagram resources, and the shared id
counter. -/
structure NetOpState where
  resource_table : List (Nat × String × StreamResourceHolder)
  resource_table_2 : List (Nat × NetResource)
  next_rid : Nat
  deriving DecidableEq, Repr

/-- `resource_table_2.get::<TcpListenerResource>`: absence and type
mismatch both yield `None`. -/
def NetOpState.get_tcpListener (st : NetOpState) (rid : Nat) :
    Option AsyncRefCell :=
  match (st.resource_table_2.find? (fun p => p.1 = rid)).map Prod.snd with
  | some (.tcpListener cell) => some cell
  | _ => none

/-- `resource_table.get_mut::<StreamResourceHolder>`. -/
def NetOpState.get_streamHolder (st : NetOpState) (rid : Nat) :
    Option StreamResourceHolder :=
  (st.resource_table.find? (fun p => p.1 = rid)).map (fun p => p.2.2)

/-- `resource_table.add(name, holder)`: binds a fresh id. -/
def NetOpState.add_streamHolder (st : NetOpState) (name : String)
    (holder : StreamResourceHolder) : Nat × NetOpState :=
  (st.next_rid,
    { st with
      resource_table := st.resource_table ++ [(st.next_rid, name, holder)],
      next_rid := st.next_rid + 1 })

/-- `accept_tcp` (cli/ops/net.rs lines 54-94).  The listener is fetched
from `resource_table_2`; a missing or mistyped id is the `bad_resource`
error.  `TcpListenerResource::try_borrow_mut` (lines 376-380) is the
fail-fast acquisition; `None` is mapped to the custom `Busy` error without
waiting.  `acceptResult` oracles the awaited OS accept (the borrow guard
is released when the call leaves scope, so the cell is back to its
original state in every returned outcome).  On success the new TCP stream
is registered under `"tcpStream"` and its fresh id returned. -/
def accept_tcp (acceptResult : Except AnyError Nat) (st : NetOpState)
    (rid : Nat) : Except AnyError Nat × NetOpState :=
  match st.get_tcpListener rid with
  | none => (.error (.badResource "Listener has been closed"), st)
  | some cell =>
      match cell.try_borrow_mut with
      | (none, _) =>
          (.error (.customError "Busy" "Another accept task is ongoing"), st)
      | (some _, _acquired) =>
          match acceptResult with
          | .error e => (.error e, st)
          | .ok conn =>
              let r := st.add_streamHolder "tcpStream"
                ⟨StreamResource.tcpStream (some conn)⟩
              (.ok r.1, r.2)

/-- The `rid`/`how` argument pair of `op_shutdown`; both arrive as `i32`. -/
structure ShutdownArgs where
  rid : Int
  how : Int
  deriving DecidableEq, Repr

/-- The two shutdown modes `op_shutdown` can build. -/
inductive ShutdownMode where
  | read
  | write
  deriving DecidableEq, Repr

/-- `op_shutdown` (cli/ops/net.rs lines 330-364), entered after
`check_unstable` has passed and the arguments have deserialized.  The
`how` match runs first: `0` is `Shutdown::Read`, `1` is `Shutdown::Write`,
anything else hits `unimplemented!()` — modelled as `none` (a panic, not a
returned error).  Then the stream holder is fetched (`rid as u32` is the
wrapping cast) and the OS shutdown (oracled by `shutdownResult`) is run on
a TCP or Unix stream; other holders are `bad_resource_id`. -/
def op_shutdown (shutdownResult : ShutdownMode → Except AnyError Unit)
    (st : NetOpState) (args : ShutdownArgs) :
    Option (Except AnyError Unit) :=
  let mode? : Option ShutdownMode :=
    if args.how = 0 then some .read
    else if args.how = 1 then some .write
    else none
  match mode? with
  | none => none
  | some shutdown_mode =>
      some
        (match st.get_streamHolder (args.rid % (2 ^ 32 : Int)).toNat with
         | none => .error .badResourceId
         | some holder =>
             match holder.resource with
             | .tcpStream (some _) => shutdownResult shutdown_mode
             | .unixStream _ => shutdownResult shutdown_mode
             | _ => .error .badResourceId)

end Net

namespace Plugin

open DenoCore

/-- The boxed `dyn Resource` values moving through the plugin interface's
resource table: either an ordinary resource created by the plugin, or the
private `RefResource` wrapper (cli/ops/plugin.rs lines 88-91) pairing a
clone of the plugin's `Rc<Library>` handle with the inner resource. -/
inductive PluginRes where
  | res (name : String) (data : Nat)
  | refResource (lib : Nat) (inner : PluginRes)
  deriving DecidableEq, Repr

/-- `unwrapRef`: the downcast-and-unwrap step shared by `get_boxed`,
`get_mut_boxed` and `remove_boxed` — a `RefResource` exposes its inner
boxed resource, anything else is returned as is. -/
def unwrapRef : PluginRes → PluginRes
  | .refResource _ inner => inner
  | r => r

/-- `PluginResourceTable` (cli/ops/plugin.rs lines 93-96): a borrow of the
isolate's name-keyed resource table plus the plugin's `Rc<Library>`
handle (modelled as the library's numeric identity). -/
structure PluginResourceTable where
  resource_table : List (Nat × String × PluginRes)
  next_rid : Nat
  lib : Nat
  deriving DecidableEq, Repr

/-- The raw stored entry under an id, wrapper and all. -/
def PluginResourceTable.storedAt (t : PluginResourceTable) (rid : Nat) :
    Option PluginRes :=
  (t.resource_table.find? (fun p => p.1 = rid)).map (fun p => p.2.2)

/-- `PluginResourceTable::add` (cli/ops/plugin.rs lines 129-135): the
resource is wrapped in a `RefResource` holding a clone of the plugin's
library handle before insertion. -/
def PluginResourceTable.add (t : PluginResourceTable) (name : String)
    (r : PluginRes) : Nat × PluginResourceTable :=
  (t.next_rid,
    { t with
      resource_table :=
        t.resource_table ++ [(t.next_rid, name, PluginRes.refResource t.lib r)],
      next_rid := t.next_rid + 1 })

/-- `PluginResourceTable::get_boxed`: unwraps a `RefResource` and exposes
the inner boxed resource. -/
def PluginResourceTable.get_boxed (t : PluginResourceTable) (rid : Nat) :
    Option PluginRes :=
  (t.storedAt rid).map unwrapRef

/-- `PluginResourceTable::get_mut_boxed`: same unwrapping as `get_boxed`. -/
def PluginResourceTable.get_mut_boxed (t : PluginResourceTable)
    (rid : Nat) : Option PluginRes :=
  (t.storedAt rid).map unwrapRef

/-- `PluginResourceTable::remove_boxed`: removes the entry and returns the
unwrapped inner resource. -/
def PluginResourceTable.remove_boxed (t : PluginResourceTable)
    (rid : Nat) : Option PluginRes × PluginResourceTable :=
  match t.storedAt rid with
  | some r =>
      (some (unwrapRef r),
        { t with
          resource_table := t.resource_table.filter (fun p => p.1 ≠ rid) })
  | none => (none, t)

end Plugin

namespace OpsBin

open DenoCore

/-- `ValueOrVector` (core/ops_bin.rs): a bin op returns either a byte
vector or a bare `u32`. -/
inductive ValueOrVector where
  | vec (bytes : List Nat)
  | u32 (n : Nat)
  deriving DecidableEq, Repr

/-- `ValueOrVector::value`: the length for a vector, the number itself for
a `u32`. -/
def ValueOrVector.value : ValueOrVector → Nat
  | .vec b => b.length
  | .u32 n => n

/-- `ValueOrVector::vector`: `Some` for a vector, `None` for a `u32`. -/
def ValueOrVector.vector : ValueOrVector → Option (List Nat)
  | .vec b => some b
  | .u32 _ => none

/-- The serialized response of an op: either a raw buffer or a serialized
value tagged with the promise id it answers (`none` for a synchronous
response). -/
inductive OpResponse where
  | buffer (bytes : List Nat)
  | value (pid : Option Nat) (result : Except String Nat)
  deriving Repr

/-- `serialize_op_result(pid, result, state)`. -/
def serialize_op_result (pid : Option Nat) (result : Except String Nat) :
    OpResponse :=
  OpResponse.value pid result

/-- `serialize_bin_result` (core/ops_bin.rs lines 96-116). -/
def serialize_bin_result (pid : Option Nat)
    (result : Except String ValueOrVector) : OpResponse :=
  match result with
  | .ok v =>
      match v.vector with
      | some vec => .buffer vec
      | none => serialize_op_result pid (.ok v.value)
  | .error e => serialize_op_result pid (.error e)

/-- `Op`: a call completes either synchronously with a response, or
asynchronously with a future whose eventual response carries the call's
promise id. -/
inductive Op where
  | sync (resp : OpResponse)
  | async (fut : OpResponse)
  deriving Repr

/-- The handler built by `bin_op_sync` (core/ops_bin.rs lines 68-93).  The
payload is deserialized with `unwrap` (`none` panics, modelled as the
outer `none`); a missing raw buffer arg short-circuits to a synchronous
type-error response before `op_fn` is ever invoked. -/
def bin_op_sync {S : Type}
    (op_fn : S → Nat → List (List Nat) → Except String ValueOrVector)
    (state : S) (_pid : Nat) (payload : Option Nat)
    (buf : Option (List Nat)) : Option Op :=
  match payload with
  | none => none
  | some min_arg =>
      let bufs : List (List Nat) :=
        match buf with
        | some b => [b]
        | none => []
      if bufs.length = 0 then
        some (.sync (serialize_bin_result none
          (.error "bin-ops require a non-null buffer arg")))
      else
        some (.sync (serialize_bin_result none (op_fn state min_arg bufs)))

/-- The handler built by `bin_op_async` (core/ops_bin.rs lines 142-172).
`op_fn`'s future is modelled by its eventual result; the buffer check runs
before the future is even created, and its failure completes the call as
`Op::Sync` with no promise id attached. -/
def bin_op_async {S : Type}
    (op_fn : S → Nat → List (List Nat) → Except String ValueOrVector)
    (state : S) (pid : Nat) (payload : Option Nat)
    (buf : Option (List Nat)) : Option Op :=
  match payload with
  | none => none
  | some min_arg =>
      let bufs : List (List Nat) :=
        match buf with
        | some b => [b]
        | none => []
      if bufs.length = 0 then
        some (.sync (serialize_bin_result none
          (.error "bin-ops require a non-null buffer arg")))
      else
        some (.async (serialize_bin_result (some pid)
          (op_fn state min_arg bufs)))

end OpsBin

/-! Theorems. -/

open DenoCore Extensions RuntimeModules RuntimeOps Net Plugin OpsBin

/-- Claim C1 counterexample: an `Extension` (and a `BasicModule`) whose op
declarations were consumed by a first `init_ops` call does NOT fail loudly
on the second call — the second call returns `Ok(())` and registers
nothing, contradicting the claim that re-consumption returns an error. -/
theorem c1_counterexample_second_init_ops_returns_ok :
    (let e : Extension Nat Nat :=
       { js_files := none, ops := some [("op_a", 7)], opstate_fn := none,
         middleware_fn := none }
     let first := e.init_ops (.base [])
     let second := first.2.1.init_ops first.2.2
     second.1 = Except.ok () ∧ second.2.2 = first.2.2) ∧
    (let m : BasicModule Nat Nat :=
       { js_files := none, ops := some [("op_b", 9)], opstate_fn := none }
     let first := m.init_ops (.base [])
     let second := first.2.1.init_ops first.2.2
     second.1 = Except.ok () ∧ second.2.2 = first.2.2) :=
  ⟨⟨rfl, rfl⟩, ⟨rfl, rfl⟩⟩

/-- Claim C1 (amended): once the op declarations of an `Extension` or a
`BasicModule` have been consumed (`ops` is `None`), running `init_ops`
again is a silent no-op — it returns `Ok(())`, leaves the bundle
unchanged, and registers nothing — rather than failing loudly. -/
theorem c1_init_ops_reconsumption_silent_noop {F S : Type}
    (e : Extension F S) (he : e.ops = none) (r : OpRegistrar F)
    (m : BasicModule F S) (hm : m.ops = none) (r2 : OpRegistrar F) :
    e.init_ops r = (Except.ok (), e, r) ∧
      m.init_ops r2 = (Except.ok (), m, r2) := by
  constructor
  · simp [Extension.init_ops, he]
  · simp [BasicModule.init_ops, hm]

/-- Witness for C1 (amended) at a concrete consumed extension and module. -/
theorem c1_init_ops_reconsumption_silent_noop_witness :
    (⟨none, none, none, none⟩ : Extension Nat Nat).init_ops (.base []) =
        (Except.ok (), ⟨none, none, none, none⟩, .base []) ∧
      (⟨none, none, none⟩ : BasicModule Nat Nat).init_ops (.base []) =
        (Except.ok (), ⟨none, none, none⟩, .base []) :=
  c1_init_ops_reconsumption_silent_noop
    ⟨none, none, none, none⟩ rfl (.base []) ⟨none, none, none⟩ rfl (.base [])

/-- Registering through any registrar chain appends exactly the given name
to the externally visible op names, however deep the middleware nesting. -/
theorem opNames_register_op {F : Type} (r : OpRegistrar F) :
    ∀ (name : String) (f : F),
      (r.register_op name f).opNames = r.opNames ++ [name] := by
  induction r with
  | base ops =>
      intro name f
      simp [OpRegistrar.register_op, OpRegistrar.opNames,
        OpRegistrar.storedOps]
  | middleware inner mfn ih =>
      intro name f
      exact ih name (mfn name f)

/-- Claim C8: `OpMiddleware::register_op` delegates to the wrapped
registrar under the identical name, transforming only the handler
function, and the externally visible keys of the final stored map are the
registered names themselves, unchanged by the wrapping. -/
theorem c8_middleware_register_op_preserves_name {F : Type}
    (r : OpRegistrar F) (mfn : String → F → F) (name : String) (f : F) :
    ((OpRegistrar.middleware r mfn).register_op name f).storedOps =
        (r.register_op name (mfn name f)).storedOps ∧
      ((OpRegistrar.middleware r mfn).register_op name f).opNames =
        r.opNames ++ [name] := by
  refine ⟨rfl, ?_⟩
  exact opNames_register_op (OpRegistrar.middleware r mfn) name f

/-- Claim C2: with two middlewares stacked around registration — the
first-declared extension's `init_registrar` wrapping the base registrar
and the second-declared one wrapping the result — an op registered
through the chain is stored with the first-declared (outermost at call
time) transform applied last, so in the stored dispatch trace its
pre-logic runs first and its post-logic runs last, and every wrapper's
pre- and post-logic occurs exactly once per dispatch. -/
theorem c2_two_middleware_stack (name : String) (body : List MwEvent)
    (h1 : body.count (MwEvent.pre 1) = 0)
    (h2 : body.count (MwEvent.pre 2) = 0)
    (h3 : body.count (MwEvent.post 1) = 0)
    (h4 : body.count (MwEvent.post 2) = 0) :
    ((((⟨none, none, none, some (traceMiddleware 2)⟩ :
            Extension (List MwEvent) Unit).init_registrar
          ((⟨none, none, none, some (traceMiddleware 1)⟩ :
              Extension (List MwEvent) Unit).init_registrar
            (.base [])).2).2.register_op name body).storedOps =
        [(name, traceMiddleware 1 name (traceMiddleware 2 name body))] ∧
      traceMiddleware 1 name (traceMiddleware 2 name body) =
        MwEvent.pre 1 :: MwEvent.pre 2 ::
          (body ++ [MwEvent.post 2, MwEvent.post 1])) ∧
      ((traceMiddleware 1 name (traceMiddleware 2 name body)).count
          (MwEvent.pre 1) = 1 ∧
        (traceMiddleware 1 name (traceMiddleware 2 name body)).count
          (MwEvent.pre 2) = 1 ∧
        (traceMiddleware 1 name (traceMiddleware 2 name body)).count
          (MwEvent.post 1) = 1 ∧
        (traceMiddleware 1 name (traceMiddleware 2 name body)).count
          (MwEvent.post 2) = 1) := by
  refine ⟨⟨rfl, ?_⟩, ?_, ?_, ?_, ?_⟩ <;>
    simp [traceMiddleware, List.count_cons, List.count_append, h1, h2, h3, h4]

/-- Witness for C2 at the one-event body `[MwEvent.body 0]` and the op
name `"op_echo"`. -/
theorem c2_two_middleware_stack_witness :
    ((((⟨none, none, none, some (traceMiddleware 2)⟩ :
            Extension (List MwEvent) Unit).init_registrar
          ((⟨none, none, none, some (traceMiddleware 1)⟩ :
              Extension (List MwEvent) Unit).init_registrar
            (.base [])).2).2.register_op "op_echo" [MwEvent.body 0]).storedOps =
        [("op_echo",
          traceMiddleware 1 "op_echo"
            (traceMiddleware 2 "op_echo" [MwEvent.body 0]))] ∧
      traceMiddleware 1 "op_echo"
          (traceMiddleware 2 "op_echo" [MwEvent.body 0]) =
        MwEvent.pre 1 :: MwEvent.pre 2 ::
          ([MwEvent.body 0] ++ [MwEvent.post 2, MwEvent.post 1])) ∧
      ((traceMiddleware 1 "op_echo"
            (traceMiddleware 2 "op_echo" [MwEvent.body 0])).count
          (MwEvent.pre 1) = 1 ∧
        (traceMiddleware 1 "op_echo"
            (traceMiddleware 2 "op_echo" [MwEvent.body 0])).count
          (MwEvent.pre 2) = 1 ∧
        (traceMiddleware 1 "op_echo"
            (traceMiddleware 2 "op_echo" [MwEvent.body 0])).count
          (MwEvent.post 1) = 1 ∧
        (traceMiddleware 1 "op_echo"
            (traceMiddleware 2 "op_echo" [MwEvent.body 0])).count
          (MwEvent.post 2) = 1) :=
  c2_two_middleware_stack "op_echo" [MwEvent.body 0]
    (by decide) (by decide) (by decide) (by decide)

/-- Removing an id from the table makes every later lookup of that id miss. -/
theorem lookup_removeEntry_self (t : ResourceTable) (rid : Nat) :
    (t.removeEntry rid).lookup rid = none := by
  simp only [ResourceTable.lookup, ResourceTable.removeEntry,
    Option.map_eq_none']
  rw [List.find?_eq_none]
  intro x hx
  have hmem := List.mem_filter.mp hx
  simpa using hmem.2

/-- Claim C3 counterexample: a failing `op_command_child_output` call can
leave a partial effect visible.  With the child registered under id 1 and
a dangling `stdout_rid` of 5, the call errors — but the child, taken
before the failing stream `take`, is no longer in the table. -/
theorem c3_counterexample_child_output_partial_removal :
    (let t0 : ResourceTable := ⟨[(1, .child ⟨42, none, none⟩)], 2⟩
     let w : ChildProc → CommandStatus × List Nat × List Nat :=
       fun _ => (⟨true, 0, none⟩, [], [])
     let r := op_command_child_output w t0 ⟨1, some 5, none⟩
     r.1 = Except.error AnyError.badResourceId ∧
       t0.lookup 1 = some (.child ⟨42, none, none⟩) ∧
       r.2.lookup 1 = none) :=
  ⟨rfl, rfl, rfl⟩

/-- Claim C3 (amended): a failing `accept_tcp` leaves the `ResourceTable`
unchanged, but the no-partial-effect guarantee does not extend to
`op_command_child_output`: it takes the child out of the table first, and
when taking a piped stdout resource then fails, the error return leaves
the child's removal observable (the final table is the post-take one). -/
theorem c3_failing_call_effects :
    (∀ (acceptR : Except AnyError Nat) (st : NetOpState) (rid : Nat)
        (e : AnyError),
        (accept_tcp acceptR st rid).1 = .error e →
          (accept_tcp acceptR st rid).2 = st) ∧
      (∀ (w : ChildProc → CommandStatus × List Nat × List Nat)
          (t : ResourceTable) (args : ChildStdio) (c : ChildProc)
          (t1 : ResourceTable) (srid : Nat),
          t.take_child args.rid = some (c, t1) →
          args.stdout_rid = some srid →
          t1.take_childStdout srid = none →
          op_command_child_output w t args = (.error .badResourceId, t1)) := by
  constructor
  · intro acceptR st rid e h
    unfold accept_tcp at h ⊢
    cases hg : st.get_tcpListener rid with
    | none => simp [hg]
    | some cell =>
        simp only [hg] at h ⊢
        cases hb : cell.borrowed with
        | true => simp [AsyncRefCell.try_borrow_mut, hb]
        | false =>
            simp only [AsyncRefCell.try_borrow_mut, hb, if_false,
              Bool.false_eq_true] at h ⊢
            cases acceptR with
            | error e2 => simp
            | ok conn => simp at h
  · intro w t args c t1 srid ht hs hout
    simp [op_command_child_output, ht, hs, hout]

/-- Witness for C3 (amended): a failing accept on an empty state leaves it
unchanged, and the concrete failing `op_command_child_output` run ends in
the post-take table with the child gone. -/
theorem c3_failing_call_effects_witness :
    (accept_tcp (.error (.underlying "io")) ⟨[], [], 0⟩ 0).2 =
        (⟨[], [], 0⟩ : NetOpState) ∧
      op_command_child_output (fun _ => (⟨true, 0, none⟩, [], []))
          ⟨[(1, .child ⟨42, none, none⟩)], 2⟩ ⟨1, some 5, none⟩ =
        (.error .badResourceId, (⟨[], 2⟩ : ResourceTable)) :=
  ⟨c3_failing_call_effects.1 (.error (.underlying "io")) ⟨[], [], 0⟩ 0
      (.badResource "Listener has been closed") rfl,
    c3_failing_call_effects.2 (fun _ => (⟨true, 0, none⟩, [], []))
      ⟨[(1, .child ⟨42, none, none⟩)], 2⟩ ⟨1, some 5, none⟩
      ⟨42, none, none⟩ ⟨[], 2⟩ 5 rfl rfl rfl⟩

/-- Claim C6: `op_command_child_wait` hands the child wholesale into the
consuming wait: the child is removed from the table with `take` before the
exit is awaited, so afterwards the id is absent — `get`, `take` and
`close` of that id all report NotFound — while the wait result is computed
from the very child that was removed. -/
theorem c6_child_wait_takes_child (wait : ChildProc → CommandStatus)
    (t : ResourceTable) (rid : Nat) (c : ChildProc)
    (h : t.lookup rid = some (.child c)) :
    (op_command_child_wait wait t rid).1 = .ok (wait c) ∧
      (op_command_child_wait wait t rid).2 = t.removeEntry rid ∧
      (op_command_child_wait wait t rid).2.lookup rid = none ∧
      (op_command_child_wait wait t rid).2.get_child rid = none ∧
      (op_command_child_wait wait t rid).2.take_child rid = none ∧
      ∀ cancels,
        (op_command_child_wait wait t rid).2.close cancels rid = none := by
  have hstep : op_command_child_wait wait t rid =
      (.ok (wait c), t.removeEntry rid) := by
    simp [op_command_child_wait, ResourceTable.take_child, h]
  have hl := lookup_removeEntry_self t rid
  refine ⟨by simp [hstep], by simp [hstep], by simp [hstep, hl], ?_, ?_, ?_⟩
  · simp [hstep, ResourceTable.get_child, hl]
  · simp [hstep, ResourceTable.take_child, hl]
  · intro cancels
    simp [hstep, ResourceTable.close, hl]

/-- Witness for C6 at a table holding one child under id 3. -/
theorem c6_child_wait_takes_child_witness :
    (op_command_child_wait (fun _ => ⟨true, 0, none⟩)
          ⟨[(3, .child ⟨7, none, none⟩)], 4⟩ 3).1 =
        .ok ⟨true, 0, none⟩ ∧
      (op_command_child_wait (fun _ => ⟨true, 0, none⟩)
          ⟨[(3, .child ⟨7, none, none⟩)], 4⟩ 3).2.lookup 3 = none ∧
      (op_command_child_wait (fun _ => ⟨true, 0, none⟩)
          ⟨[(3, .child ⟨7, none, none⟩)], 4⟩ 3).2.get_child 3 = none ∧
      (op_command_child_wait (fun _ => ⟨true, 0, none⟩)
          ⟨[(3, .child ⟨7, none, none⟩)], 4⟩ 3).2.take_child 3 = none ∧
      (op_command_child_wait (fun _ => ⟨true, 0, none⟩)
          ⟨[(3, .child ⟨7, none, none⟩)], 4⟩ 3).2.close (fun _ => false) 3 =
        none :=
  (fun H => ⟨H.1, H.2.2.1, H.2.2.2.1, H.2.2.2.2.1, H.2.2.2.2.2 _⟩)
    (c6_child_wait_takes_child (fun _ => ⟨true, 0, none⟩)
      ⟨[(3, .child ⟨7, none, none⟩)], 4⟩ 3 ⟨7, none, none⟩ rfl)

/-- Claim C4: closing a signal-stream resource through
`op_signal_unbind` succeeds, triggers the resource's `CancelHandle`, and a
suspended `op_signal_poll` on that handle then resolves as the clean end
`Ok(true)` — never as an error — whatever the underlying signal wait
would have yielded. -/
theorem c4_signal_unbind_cancels_poll (t : ResourceTable)
    (cancels : Nat → Bool) (rid h : Nat) (recv : Option Unit)
    (hres : t.lookup rid = some (.signalStream h)) :
    (op_signal_unbind t cancels rid).1 = .ok () ∧
      (op_signal_unbind t cancels rid).2.2 h = true ∧
      op_signal_poll_resume ((op_signal_unbind t cancels rid).2.2 h) recv =
        .ok true ∧
      ∀ e, op_signal_poll_resume ((op_signal_unbind t cancels rid).2.2 h)
          recv ≠ .error e := by
  have hcc : (op_signal_unbind t cancels rid).2.2 h = true := by
    simp [op_signal_unbind, ResourceTable.close, hres, closeHook]
  refine ⟨?_, hcc, ?_, ?_⟩
  · simp [op_signal_unbind, ResourceTable.close, hres]
  · simp [hcc, op_signal_poll_resume, or_cancel]
  · intro e
    simp [hcc, op_signal_poll_resume, or_cancel]

/-- Witness for C4 at a table holding one signal stream under id 3 with
cancel handle 0, with the OS wait outcome `none`. -/
theorem c4_signal_unbind_cancels_poll_witness :
    (op_signal_unbind ⟨[(3, .signalStream 0)], 4⟩ (fun _ => false) 3).1 =
        .ok () ∧
      (op_signal_unbind ⟨[(3, .signalStream 0)], 4⟩
          (fun _ => false) 3).2.2 0 = true ∧
      op_signal_poll_resume
          ((op_signal_unbind ⟨[(3, .signalStream 0)], 4⟩
            (fun _ => false) 3).2.2 0) none = .ok true ∧
      op_signal_poll_resume
          ((op_signal_unbind ⟨[(3, .signalStream 0)], 4⟩
            (fun _ => false) 3).2.2 0) none ≠ .error .badResourceId :=
  (fun H => ⟨H.1, H.2.1, H.2.2.1, H.2.2.2 .badResourceId⟩)
    (c4_signal_unbind_cancels_poll ⟨[(3, .signalStream 0)], 4⟩
      (fun _ => false) 3 0 none rfl)

/-- Claim C5: the fail-fast exclusive-borrow attempt on a listener's cell.
When an exclusive borrow is outstanding, `try_borrow_mut` returns `None`
with the cell untouched — no waiter is enqueued, the caller is not
suspended — and `accept_tcp` maps that to the immediate Busy error with
the state unchanged.  When no borrow is outstanding, the attempt acquires
the exclusive flag and the accept proceeds past the Busy check. -/
theorem c5_try_borrow_mut_fail_fast (c : AsyncRefCell) (st : NetOpState)
    (rid : Nat) (acceptR : Except AnyError Nat)
    (hin : st.get_tcpListener rid = some c) :
    (c.borrowed = true →
        c.try_borrow_mut = (none, c) ∧
          accept_tcp acceptR st rid =
            (.error (.customError "Busy" "Another accept task is ongoing"),
              st)) ∧
      (c.borrowed = false →
        c.try_borrow_mut = (some (), { c with borrowed := true }) ∧
          ∀ conn, acceptR = .ok conn →
            accept_tcp acceptR st rid =
              (.ok (st.add_streamHolder "tcpStream"
                  ⟨StreamResource.tcpStream (some conn)⟩).1,
                (st.add_streamHolder "tcpStream"
                  ⟨StreamResource.tcpStream (some conn)⟩).2)) := by
  constructor
  · intro hb
    constructor
    · simp [AsyncRefCell.try_borrow_mut, hb]
    · simp [accept_tcp, hin, AsyncRefCell.try_borrow_mut, hb]
  · intro hb
    constructor
    · simp [AsyncRefCell.try_borrow_mut, hb]
    · intro conn hconn
      simp [accept_tcp, hin, AsyncRefCell.try_borrow_mut, hb, hconn]

/-- Witness for C5: with the listener's cell already borrowed, accept is
Busy and nothing changes; with the cell free, the borrow is acquired and
the accept registers the new stream under the fresh id 2. -/
theorem c5_try_borrow_mut_fail_fast_witness :
    ((AsyncRefCell.mk true []).try_borrow_mut = (none, ⟨true, []⟩) ∧
        accept_tcp (.ok 9) ⟨[], [(1, .tcpListener ⟨true, []⟩)], 2⟩ 1 =
          (.error (.customError "Busy" "Another accept task is ongoing"),
            ⟨[], [(1, .tcpListener ⟨true, []⟩)], 2⟩)) ∧
      ((AsyncRefCell.mk false []).try_borrow_mut = (some (), ⟨true, []⟩) ∧
        accept_tcp (.ok 9) ⟨[], [(1, .tcpListener ⟨false, []⟩)], 2⟩ 1 =
          (.ok 2,
            ⟨[(2, "tcpStream", ⟨StreamResource.tcpStream (some 9)⟩)],
              [(1, .tcpListener ⟨false, []⟩)], 3⟩)) :=
  ⟨(c5_try_borrow_mut_fail_fast ⟨true, []⟩
        ⟨[], [(1, .tcpListener ⟨true, []⟩)], 2⟩ 1 (.ok 9) rfl).1 rfl,
    (fun H => ⟨H.1, H.2 9 rfl⟩)
      ((c5_try_borrow_mut_fail_fast ⟨false, []⟩
        ⟨[], [(1, .tcpListener ⟨false, []⟩)], 2⟩ 1 (.ok 9) rfl).2 rfl)⟩

/-- Claim C7: a resource added through the plugin interface's table is
stored wrapped in a `RefResource` holding the plugin's library handle, and
the wrapping is transparent — `get_boxed`, `get_mut_boxed` and
`remove_boxed` at the returned id all yield the inner resource itself,
never the wrapper. -/
theorem c7_plugin_add_wraps_transparently (t : PluginResourceTable)
    (name : String) (r : PluginRes)
    (hfresh : t.storedAt t.next_rid = none) :
    (t.add name r).2.storedAt (t.add name r).1 =
        some (PluginRes.refResource t.lib r) ∧
      (t.add name r).2.get_boxed (t.add name r).1 = some r ∧
      (t.add name r).2.get_mut_boxed (t.add name r).1 = some r ∧
      ((t.add name r).2.remove_boxed (t.add name r).1).1 = some r := by
  have hfind : t.resource_table.find? (fun p => p.1 = t.next_rid) = none := by
    simpa [PluginResourceTable.storedAt, Option.map_eq_none'] using hfresh
  have hstored : (t.add name r).2.storedAt (t.add name r).1 =
      some (PluginRes.refResource t.lib r) := by
    simp [PluginResourceTable.add, PluginResourceTable.storedAt,
      List.find?_append, hfind]
  refine ⟨hstored, ?_, ?_, ?_⟩
  · simp [PluginResourceTable.get_boxed, hstored, unwrapRef]
  · simp [PluginResourceTable.get_mut_boxed, hstored, unwrapRef]
  · simp [PluginResourceTable.remove_boxed, hstored, unwrapRef]

/-- Witness for C7: adding an ordinary plugin resource to an empty table
with library handle 77. -/
theorem c7_plugin_add_wraps_transparently_witness :
    ((⟨[], 0, 77⟩ : PluginResourceTable).add "conn" (.res "sock" 5)).2.storedAt
        ((⟨[], 0, 77⟩ : PluginResourceTable).add "conn" (.res "sock" 5)).1 =
        some (PluginRes.refResource 77 (.res "sock" 5)) ∧
      ((⟨[], 0, 77⟩ : PluginResourceTable).add "conn"
            (.res "sock" 5)).2.get_boxed 0 = some (.res "sock" 5) ∧
      ((⟨[], 0, 77⟩ : PluginResourceTable).add "conn"
            (.res "sock" 5)).2.get_mut_boxed 0 = some (.res "sock" 5) ∧
      (((⟨[], 0, 77⟩ : PluginResourceTable).add "conn"
            (.res "sock" 5)).2.remove_boxed 0).1 = some (.res "sock" 5) :=
  c7_plugin_add_wraps_transparently ⟨[], 0, 77⟩ "conn" (.res "sock" 5) rfl

/-- Claim C9: a handler built by `bin_op_sync` or `bin_op_async`, invoked
with no raw buffer argument, returns the synchronous type-error response
without invoking the wrapped op function (the outcome is independent of
it), and in the `bin_op_async` case the call completes as `Op::Sync` —
never as an asynchronous completion carrying the call's promise id. -/
theorem c9_bin_op_missing_buffer_sync_type_error {S : Type}
    (op_fn op_fn2 : S → Nat → List (List Nat) → Except String ValueOrVector)
    (state : S) (pid : Nat) (n : Nat) :
    bin_op_sync op_fn state pid (some n) none =
        some (.sync (.value none
          (.error "bin-ops require a non-null buffer arg"))) ∧
      bin_op_async op_fn state pid (some n) none =
        some (.sync (.value none
          (.error "bin-ops require a non-null buffer arg"))) ∧
      bin_op_sync op_fn state pid (some n) none =
        bin_op_sync op_fn2 state pid (some n) none ∧
      bin_op_async op_fn state pid (some n) none =
        bin_op_async op_fn2 state pid (some n) none ∧
      ∀ resp,
        bin_op_async op_fn state pid (some n) none ≠ some (.async resp) := by
  refine ⟨rfl, rfl, rfl, rfl, ?_⟩
  intro resp h
  simp [bin_op_async, serialize_bin_result, serialize_op_result] at h

/-- Claim C10: `op_shutdown` is defined exactly for `how` values 0 and 1;
any other value reaches the `unimplemented!()` branch and panics
(modelled as `none`) instead of returning a typed error. -/
theorem c10_op_shutdown_how_partiality
    (sres : ShutdownMode → Except AnyError Unit) (st : NetOpState)
    (args : ShutdownArgs) :
    ((args.how = 0 ∨ args.how = 1) → (op_shutdown sres st args).isSome) ∧
      (args.how ≠ 0 → args.how ≠ 1 → op_shutdown sres st args = none) := by
  constructor
  · rintro (h | h) <;> simp [op_shutdown, h]
  · intro h0 h1
    simp [op_shutdown, h0, h1]

/-- Witness for C10: `how = 1` yields a returned result, `how = 5`
panics. -/
theorem c10_op_shutdown_how_partiality_witness :
    (op_shutdown (fun _ => .ok ()) ⟨[], [], 0⟩ ⟨0, 1⟩).isSome ∧
      op_shutdown (fun _ => .ok ()) ⟨[], [], 0⟩ ⟨0, 5⟩ = none :=
  ⟨(c10_op_shutdown_how_partiality (fun _ => .ok ()) ⟨[], [], 0⟩ ⟨0, 1⟩).1
      (Or.inr rfl),
    (c10_op_shutdown_how_partiality (fun _ => .ok ()) ⟨[], [], 0⟩ ⟨0, 5⟩).2
      (by decide) (by decide)⟩
